import Mathlib

/-!
Shallow embedding of the live quiz session engine of the LMS server
(server/routes/quiz.js, server/models/QuizSession.js, server/models/QuizQuestion.js,
server/models/QuizSubmission.js, server/services/quizCleanup.js).

Times are modelled as integers (JavaScript epoch milliseconds); durations are
integers (seconds).  The Mongo document store is modelled as explicit lists of
records; a mongoose `save` is a map over the list replacing the documents with
the same id; the unique indexes (compound key on submissions, `quizCode` on
sessions) are modelled in the insert operations, which fail exactly when a
conflicting document exists.
-/

namespace LMS

/-- Session type: 'single' = one question with timer, 'class' = multi-question session. -/
inductive SessionType where
  | single
  | cls
  deriving DecidableEq, Repr

/-- Session status enum: 'waiting', 'active', 'expired'. -/
inductive SessionStatus where
  | waiting
  | active
  | expired
  deriving DecidableEq, Repr

/-- Error kinds, as surfaced by the routes (HTTP statuses carried separately). -/
inductive QuizError where
  | NotFound
  | Expired
  | WrongType
  | NotOwner
  | Forbidden
  | AlreadyReserved
  | NoActiveQuestion
  | DuplicateSubmission
  | InvalidInput
  | ServerError
  deriving DecidableEq, Repr

/-- A quiz question document (server/models/QuizQuestion.js). -/
structure Question where
  qid : Nat
  courseId : String
  question : String
  options : List String
  correctAnswer : Nat
  difficulty : String
  explanation : String
  timesUsed : Nat
  lastUsedAt : Option Int
  isActiveInSession : Bool
  activeSessionId : Option Nat
  deriving DecidableEq, Repr

/-- One `questionsHistory` entry of a class session. -/
structure HistoryEntry where
  questionId : Nat
  broadcastedAt : Int
  deriving DecidableEq, Repr

/-- One `studentsJoined` entry of a class session. -/
structure JoinedStudent where
  email : String
  name : String
  joinedAt : Int
  deriving DecidableEq, Repr

/-- A quiz session document (server/models/QuizSession.js). -/
structure QuizSession where
  sid : Nat
  quizCode : String
  sessionType : SessionType
  questionId : Option Nat
  activeQuestionId : Option Nat
  questionsHistory : List HistoryEntry
  duration : Int
  startedAt : Int
  expiresAt : Int
  status : SessionStatus
  createdBy : String
  courseId : String
  studentsJoined : List JoinedStudent
  deriving DecidableEq, Repr

/-- A submission document (server/models/QuizSubmission.js). -/
structure Submission where
  quizSessionId : Nat
  questionId : Nat
  studentEmail : String
  studentName : String
  selectedOption : Int
  isCorrect : Bool
  timeTaken : Int
  submittedAt : Int
  deriving DecidableEq, Repr

/-- The document store. -/
structure Store where
  sessions : List QuizSession
  questions : List Question
  submissions : List Submission
  deriving DecidableEq, Repr

/-- `isExpired` method: `Date.now() > this.expiresAt` (strict). -/
def isExpired (s : QuizSession) (now : Int) : Bool :=
  now > s.expiresAt

/-- `getRemainingTime` method: `max 0 (floor ((expiresAt - now) / 1000))`. -/
def getRemainingTime (s : QuizSession) (now : Int) : Int :=
  max 0 (Int.fdiv (s.expiresAt - now) 1000)

/-- `QuizSession.findOne({ quizCode: code })`. -/
def findSessionByCode (st : Store) (code : String) : Option QuizSession :=
  st.sessions.find? (fun s => s.quizCode == code)

/-- `QuizQuestion.findById(qid)`. -/
def findQuestionById (st : Store) (qid : Nat) : Option Question :=
  st.questions.find? (fun q => q.qid == qid)

/-- Persisting a session document (`session.save()`). -/
def saveSession (st : Store) (s : QuizSession) : Store :=
  { st with sessions := st.sessions.map (fun x => if x.sid = s.sid then s else x) }

/-- Persisting a question document (`question.save()`). -/
def saveQuestion (st : Store) (q : Question) : Store :=
  { st with questions := st.questions.map (fun x => if x.qid = q.qid then q else x) }

/-- `QuizSubmission.findOne({ quizSessionId, questionId, studentEmail })`. -/
def findSubmission (st : Store) (sid qid : Nat) (email : String) : Option Submission :=
  st.submissions.find? (fun s =>
    s.quizSessionId == sid && s.questionId == qid && s.studentEmail == email)

/-- `QuizSubmission.create(...)`: the storage-level insert.  The compound unique
index `{ quizSessionId, questionId, studentEmail }` makes the insert fail
atomically (Mongo error 11000) when a document with the same triple exists. -/
def insertSubmission (st : Store) (sub : Submission) : Except QuizError Store :=
  if st.submissions.any (fun s =>
      s.quizSessionId == sub.quizSessionId && s.questionId == sub.questionId &&
      s.studentEmail == sub.studentEmail) then
    Except.error QuizError.DuplicateSubmission
  else
    Except.ok { st with submissions := st.submissions ++ [sub] }

/-- `QuizSession.create(...)`: the storage-level insert.  The schema declares
`quizCode` with `unique: true`, so the insert fails (error 11000, surfaced by
the route's catch block as a 500) when ANY session - expired or not - already
holds the code. -/
def insertSession (st : Store) (s : QuizSession) : Except QuizError Store :=
  if st.sessions.any (fun x => x.quizCode == s.quizCode) then
    Except.error QuizError.ServerError
  else
    Except.ok { st with sessions := st.sessions ++ [s] }

/-- `markAsUsed` method: increments `timesUsed`, sets `lastUsedAt`. -/
def markAsUsed (q : Question) (now : Int) : Question :=
  { q with timesUsed := q.timesUsed + 1, lastUsedAt := some now }

/-- `activateInSession` method: unconditionally sets the reservation fields. -/
def activateInSession (q : Question) (sid : Nat) : Question :=
  { q with isActiveInSession := true, activeSessionId := some sid }

/-- `deactivateFromSession` method: unconditionally clears the reservation. -/
def deactivateFromSession (q : Question) : Question :=
  { q with isActiveInSession := false, activeSessionId := none }

/-- `addStudent` method: idempotent append keyed by email. -/
def addStudent (s : QuizSession) (email name : String) (now : Int) : QuizSession :=
  if s.studentsJoined.any (fun x => x.email == email) then s
  else { s with studentsJoined := s.studentsJoined ++ [⟨email, name, now⟩] }

/-- `broadcastQuestion` method (the session-document part): sets
`activeQuestionId`, sets status to active, appends to `questionsHistory`. -/
def broadcastQuestionMethod (s : QuizSession) (qid : Nat) (now : Int) : QuizSession :=
  { s with activeQuestionId := some qid,
           status := SessionStatus.active,
           questionsHistory := s.questionsHistory ++ [⟨qid, now⟩] }

/-- `generateUniqueCode` / `generateClassCode` statics: draw candidates until one
has no NON-expired session holding it (`findOne({ quizCode, status: { $ne:
'expired' } })`).  The stream of random draws is passed in explicitly; `none`
models running out of the supplied draws. -/
def generateUniqueCode (st : Store) : List String → Option String
  | [] => none
  | c :: rest =>
    if st.sessions.any (fun s => s.quizCode == c && !(s.status == SessionStatus.expired)) then
      generateUniqueCode st rest
    else
      some c

/-- The code-format validation of the join route: `^\d{6}$` or `^CS_\d{6}$`
(expressed over the character list). -/
def isSixDigitChars (l : List Char) : Bool :=
  l.length == 6 && l.all Char.isDigit

def validCodeFormat (code : String) : Bool :=
  isSixDigitChars code.toList ||
    (code.toList.take 3 == ['C', 'S', '_'] && isSixDigitChars (code.toList.drop 3))

/-- A route response.  One record with optional fields covering the union of
the JSON bodies the join / poll / submit handlers ever send; a field is `none`
exactly when the handler's JSON omits it.  (Constant strings such as
`courseTitle` and `message` carry no question content and are not modelled.) -/
structure Response where
  httpStatus : Nat
  success : Bool
  errorCode : Option QuizError
  statusStr : Option String
  questionText : Option String
  options : Option (List String)
  difficulty : Option String
  questionIdOut : Option Nat
  remainingTime : Option Int
  isCorrect : Option Bool
  correctAnswer : Option Nat
  correctOption : Option String
  explanation : Option String
  timeTaken : Option Int
  deriving DecidableEq, Repr

def Response.empty : Response :=
  { httpStatus := 200, success := false, errorCode := none, statusStr := none,
    questionText := none, options := none, difficulty := none, questionIdOut := none,
    remainingTime := none, isCorrect := none, correctAnswer := none,
    correctOption := none, explanation := none, timeTaken := none }

def errResp (code : Nat) (e : QuizError) : Response :=
  { Response.empty with httpStatus := code, errorCode := some e }

/-- The single-session branch of the join route.  `populate('questionId')`
turning up no document makes the handler dereference null and 500. -/
def joinSingleView (st : Store) (s : QuizSession) (email : String) (now : Int) : Response :=
  match s.questionId.bind (findQuestionById st) with
  | none => errResp 500 QuizError.ServerError
  | some q =>
    match findSubmission st s.sid q.qid email with
    | some _ => errResp 409 QuizError.DuplicateSubmission
    | none =>
      { Response.empty with
          httpStatus := 200, success := true, statusStr := some "active",
          questionText := some q.question, options := some q.options,
          difficulty := some q.difficulty,
          remainingTime := some (getRemainingTime s now) }

/-- The class-session branch of the join route.  A populated
`activeQuestionId` that is null (field null, or dangling reference) falls
through to the waiting view. -/
def joinClassView (st : Store) (s : QuizSession) (email : String) : Response :=
  if s.status = SessionStatus.waiting then
    { Response.empty with httpStatus := 200, success := true, statusStr := some "waiting" }
  else
    match (if s.status = SessionStatus.active then s.activeQuestionId.bind (findQuestionById st) else none) with
    | some q =>
      match findSubmission st s.sid q.qid email with
      | some _ =>
        { Response.empty with httpStatus := 200, success := true, statusStr := some "submitted" }
      | none =>
        { Response.empty with
            httpStatus := 200, success := true, statusStr := some "active",
            questionText := some q.question, options := some q.options,
            difficulty := some q.difficulty }
    | none =>
      { Response.empty with httpStatus := 200, success := true, statusStr := some "waiting" }

/-- POST /session/join. -/
def joinSession (st : Store) (code email name : String) (now : Int) : Response × Store :=
  if !(validCodeFormat code) then (errResp 400 QuizError.InvalidInput, st)
  else
    match findSessionByCode st code with
    | none => (errResp 404 QuizError.NotFound, st)
    | some s =>
      if isExpired s now then
        (errResp 410 QuizError.Expired, saveSession st { s with status := SessionStatus.expired })
      else if s.sessionType = SessionType.single then
        (joinSingleView st s email now, st)
      else
        let s1 := addStudent s email name now
        let st1 := saveSession st s1
        (joinClassView st1 s1 email, st1)

/-- GET /session/poll/:code. -/
def pollSession (st : Store) (code email : String) (now : Int) : Response × Store :=
  match findSessionByCode st code with
  | none => (errResp 404 QuizError.NotFound, st)
  | some s =>
    if s.sessionType ≠ SessionType.cls then (errResp 400 QuizError.WrongType, st)
    else if isExpired s now then
      ({ Response.empty with httpStatus := 200, statusStr := some "expired" }, st)
    else if s.status = SessionStatus.waiting then
      ({ Response.empty with httpStatus := 200, statusStr := some "waiting" }, st)
    else
      match (if s.status = SessionStatus.active then s.activeQuestionId.bind (findQuestionById st) else none) with
      | some q =>
        match findSubmission st s.sid q.qid email with
        | some _ =>
          ({ Response.empty with httpStatus := 200, statusStr := some "submitted" }, st)
        | none =>
          ({ Response.empty with
              httpStatus := 200, statusStr := some "active",
              questionText := some q.question, options := some q.options,
              difficulty := some q.difficulty, questionIdOut := some q.qid }, st)
      | none =>
        ({ Response.empty with httpStatus := 200, statusStr := some "waiting" }, st)

/-- The reference time for a class-session submission:
`session.questionsHistory.find(q => q.questionId === question._id)?.broadcastedAt || session.startedAt`
(`Array.prototype.find` returns the FIRST matching entry). -/
def classBroadcastTime (s : QuizSession) (qid : Nat) : Int :=
  ((s.questionsHistory.find? (fun h => h.questionId == qid)).map
    (fun h => h.broadcastedAt)).getD s.startedAt

/-- POST /session/submit. -/
def submitAnswer (st : Store) (code : String) (selectedOption : Option Int)
    (email name : String) (now : Int) : Response × Store :=
  match selectedOption with
  | none => (errResp 400 QuizError.InvalidInput, st)
  | some opt =>
    if code == "" then (errResp 400 QuizError.InvalidInput, st)
    else if !(opt == 0 || opt == 1 || opt == 2 || opt == 3) then
      (errResp 400 QuizError.InvalidInput, st)
    else
      match findSessionByCode st code with
      | none => (errResp 404 QuizError.NotFound, st)
      | some s =>
        if isExpired s now then (errResp 410 QuizError.Expired, st)
        else
          match (if s.sessionType = SessionType.single then s.questionId else s.activeQuestionId) with
          | none => (errResp 400 QuizError.NoActiveQuestion, st)
          | some qid =>
            match findQuestionById st qid with
            | none => (errResp 404 QuizError.NotFound, st)
            | some q =>
              match findSubmission st s.sid q.qid email with
              | some _ => (errResp 409 QuizError.DuplicateSubmission, st)
              | none =>
                let broadcastTime : Int :=
                  if s.sessionType = SessionType.single then s.startedAt
                  else classBroadcastTime s q.qid
                let timeTaken := Int.fdiv (now - broadcastTime) 1000
                let correct : Bool := opt == (q.correctAnswer : Int)
                match insertSubmission st ⟨s.sid, q.qid, email, name, opt, correct, timeTaken, now⟩ with
                | Except.error e => (errResp 409 e, st)
                | Except.ok st1 =>
                  ({ Response.empty with
                      httpStatus := 200, success := true,
                      isCorrect := some correct,
                      correctAnswer := some q.correctAnswer,
                      correctOption := some (q.options.getD q.correctAnswer ""),
                      explanation := some q.explanation,
                      timeTaken := some timeTaken }, st1)

/-- Result of the broadcast / end / create routes. -/
inductive RouteResult (α : Type) where
  | ok (value : α)
  | err (httpStatus : Nat) (e : QuizError)
  deriving DecidableEq, Repr

/-- The "deactivate previous question if any" block shared by the broadcast
and end-class routes. -/
def releasePreviousQuestion (st : Store) (aq : Option Nat) : Store :=
  match aq with
  | some prev =>
    match findQuestionById st prev with
    | some pq => saveQuestion st (deactivateFromSession pq)
    | none => st
  | none => st

/-- POST /session/broadcast-question. -/
def broadcastRoute (st : Store) (sessionCode : String) (questionId : Nat)
    (caller : String) (now : Int) : RouteResult (Nat × Nat) × Store :=
  match findSessionByCode st sessionCode with
  | none => (RouteResult.err 404 QuizError.NotFound, st)
  | some s =>
    if s.sessionType ≠ SessionType.cls then (RouteResult.err 400 QuizError.WrongType, st)
    else if s.createdBy ≠ caller then (RouteResult.err 403 QuizError.NotOwner, st)
    else if isExpired s now then (RouteResult.err 410 QuizError.Expired, st)
    else
      match findQuestionById st questionId with
      | none => (RouteResult.err 404 QuizError.NotFound, st)
      | some q =>
        let st1 := releasePreviousQuestion st s.activeQuestionId
        let st2 := saveSession st1 (broadcastQuestionMethod s questionId now)
        let st3 := saveQuestion st2 (activateInSession q s.sid)
        let st4 := saveQuestion st3 (markAsUsed (activateInSession q s.sid) now)
        (RouteResult.ok (q.qid, s.studentsJoined.length), st4)

/-- POST /session/end-class.  (The route checks ownership but neither the
session type nor expiry.) -/
def endClassRoute (st : Store) (sessionCode caller : String) : RouteResult (Nat × Nat) × Store :=
  match findSessionByCode st sessionCode with
  | none => (RouteResult.err 404 QuizError.NotFound, st)
  | some s =>
    if s.createdBy ≠ caller then (RouteResult.err 403 QuizError.NotOwner, st)
    else
      let st1 := releasePreviousQuestion st s.activeQuestionId
      (RouteResult.ok (s.questionsHistory.length, s.studentsJoined.length),
       saveSession st1 { s with status := SessionStatus.expired })

/-- POST /session/create-single.  The allocated code and the fresh document id
are passed in (the route obtains them from `generateUniqueCode` and Mongo). -/
def createSingleRoute (st : Store) (questionId : Option Nat) (duration : Option Int)
    (quizCode : String) (caller : String) (newSid : Nat) (now : Int) :
    RouteResult QuizSession × Store :=
  match questionId with
  | none => (RouteResult.err 400 QuizError.InvalidInput, st)
  | some qid =>
    match duration with
    | none => (RouteResult.err 400 QuizError.InvalidInput, st)
    | some d =>
      if d = 0 ∨ d < 30 ∨ d > 600 then (RouteResult.err 400 QuizError.InvalidInput, st)
      else
        match findQuestionById st qid with
        | none => (RouteResult.err 404 QuizError.NotFound, st)
        | some q =>
          let s : QuizSession :=
            { sid := newSid, quizCode := quizCode, sessionType := SessionType.single,
              questionId := some q.qid, activeQuestionId := none, questionsHistory := [],
              duration := d, startedAt := now, expiresAt := now + d * 1000,
              status := SessionStatus.active, createdBy := caller,
              courseId := q.courseId, studentsJoined := [] }
          match insertSession st s with
          | Except.error e => (RouteResult.err 500 e, st)
          | Except.ok st1 =>
            let st2 := saveQuestion st1 (activateInSession q newSid)
            let st3 := saveQuestion st2 (markAsUsed (activateInSession q newSid) now)
            (RouteResult.ok s, st3)

/-- POST /session/create-class.  `courseExists` stands for the external
`Course.findOne` lookup (course storage is outside this engine). -/
def createClassRoute (st : Store) (courseId : Option String) (duration : Option Int)
    (courseExists : Bool) (quizCode : String) (caller : String) (newSid : Nat) (now : Int) :
    RouteResult QuizSession × Store :=
  match courseId with
  | none => (RouteResult.err 400 QuizError.InvalidInput, st)
  | some cid =>
    match duration with
    | none => (RouteResult.err 400 QuizError.InvalidInput, st)
    | some d =>
      if d = 0 ∨ d < 1800 ∨ d > 10800 then (RouteResult.err 400 QuizError.InvalidInput, st)
      else if !courseExists then (RouteResult.err 404 QuizError.NotFound, st)
      else
        let s : QuizSession :=
          { sid := newSid, quizCode := quizCode, sessionType := SessionType.cls,
            questionId := none, activeQuestionId := none, questionsHistory := [],
            duration := d, startedAt := now, expiresAt := now + d * 1000,
            status := SessionStatus.waiting, createdBy := caller,
            courseId := cid, studentsJoined := [] }
        match insertSession st s with
        | Except.error e => (RouteResult.err 500 e, st)
        | Except.ok st1 => (RouteResult.ok s, st1)

/-- services/quizCleanup.js `cleanupExpiredQuizzes`:
`updateMany({ status: 'active', expiresAt: { $lte: now } }, { $set: { status: 'expired' } })`. -/
def cleanupExpiredQuizzes (st : Store) (now : Int) : Store :=
  { st with sessions := st.sessions.map (fun s =>
      if s.status = SessionStatus.active ∧ s.expiresAt ≤ now then
        { s with status := SessionStatus.expired }
      else s) }

/-! ### Derived predicates -/

/-- A submission's identity triple. -/
def tripleMatches (sub : Submission) (sid qid : Nat) (email : String) : Prop :=
  sub.quizSessionId = sid ∧ sub.questionId = qid ∧ sub.studentEmail = email

instance (sub : Submission) (sid qid : Nat) (email : String) :
    Decidable (tripleMatches sub sid qid email) := by
  unfold tripleMatches; infer_instance

/-- At most one submission per `(session, question, student)` triple. -/
def atMostOnePerTriple (subs : List Submission) : Prop :=
  List.Pairwise (fun a b =>
    ¬(a.quizSessionId = b.quizSessionId ∧ a.questionId = b.questionId ∧
      a.studentEmail = b.studentEmail)) subs

instance (subs : List Submission) : Decidable (atMostOnePerTriple subs) := by
  unfold atMostOnePerTriple
  exact List.instDecidablePairwise subs

/-- N concurrent submit attempts that all reach the storage layer: the unique
index serializes the inserts in some order; each insert either lands (`true`)
or faults with the duplicate-key error (`false`). -/
def runInserts : Store → List Submission → Store × List Bool
  | st, [] => (st, [])
  | st, sub :: rest =>
    match insertSubmission st sub with
    | Except.ok st' =>
      let r := runInserts st' rest
      (r.1, true :: r.2)
    | Except.error _ =>
      let r := runInserts st rest
      (r.1, false :: r.2)

/-- Every session of `post` keeps the `expiresAt` of a same-id session of `pre`. -/
def expiryFrame (pre post : List QuizSession) : Prop :=
  ∀ x ∈ post, ∃ y ∈ pre, x.sid = y.sid ∧ x.expiresAt = y.expiresAt

def preservesExpiry (pre post : Store) : Prop :=
  expiryFrame pre.sessions post.sessions

/-! ### Concrete fixtures -/

def q10 : Question :=
  { qid := 10, courseId := "c1", question := "Q10?", options := ["a", "b", "c", "d"],
    correctAnswer := 2, difficulty := "medium", explanation := "why10",
    timesUsed := 3, lastUsedAt := none, isActiveInSession := true, activeSessionId := some 1 }

/-- A live single-question session over `q10`. -/
def sSingle : QuizSession :=
  { sid := 1, quizCode := "123456", sessionType := SessionType.single,
    questionId := some 10, activeQuestionId := none, questionsHistory := [],
    duration := 60, startedAt := 0, expiresAt := 60000,
    status := SessionStatus.active, createdBy := "t@x", courseId := "c1",
    studentsJoined := [] }

def st0 : Store := { sessions := [sSingle], questions := [q10], submissions := [] }

def sub0 : Submission :=
  { quizSessionId := 1, questionId := 10, studentEmail := "s@x", studentName := "S",
    selectedOption := 2, isCorrect := true, timeTaken := 10, submittedAt := 10000 }

/-- `st0` with a submission by `s@x` already recorded. -/
def stDup : Store := { st0 with submissions := [sub0] }

def q30 : Question :=
  { qid := 30, courseId := "c2", question := "Q30?", options := ["e", "f", "g", "h"],
    correctAnswer := 0, difficulty := "easy", explanation := "why30",
    timesUsed := 7, lastUsedAt := some 500, isActiveInSession := true, activeSessionId := some 3 }

/-- A live class session (sid 4) that does NOT hold the reservation on `q30`
(`q30` is reserved by session 3). -/
def sClassB : QuizSession :=
  { sid := 4, quizCode := "CS_444444", sessionType := SessionType.cls,
    questionId := none, activeQuestionId := none, questionsHistory := [],
    duration := 7200, startedAt := 0, expiresAt := 7200000,
    status := SessionStatus.waiting, createdBy := "b@x", courseId := "c2",
    studentsJoined := [] }

def stC2 : Store := { sessions := [sClassB], questions := [q30], submissions := [] }

def q40 : Question :=
  { qid := 40, courseId := "c3", question := "Q40?", options := ["i", "j", "k", "l"],
    correctAnswer := 1, difficulty := "hard", explanation := "why40",
    timesUsed := 1, lastUsedAt := some 2000, isActiveInSession := true, activeSessionId := some 5 }

def q41 : Question :=
  { qid := 41, courseId := "c3", question := "Q41?", options := ["m", "n", "o", "p"],
    correctAnswer := 3, difficulty := "medium", explanation := "why41",
    timesUsed := 0, lastUsedAt := none, isActiveInSession := false, activeSessionId := none }

/-- A live class session (sid 5) currently broadcasting `q40`. -/
def sClassC : QuizSession :=
  { sid := 5, quizCode := "CS_555555", sessionType := SessionType.cls,
    questionId := none, activeQuestionId := some 40,
    questionsHistory := [⟨40, 2000⟩],
    duration := 7200, startedAt := 0, expiresAt := 7200000,
    status := SessionStatus.active, createdBy := "c@x", courseId := "c3",
    studentsJoined := [⟨"s@x", "S", 100⟩] }

def stC5 : Store := { sessions := [sClassC], questions := [q40, q41], submissions := [] }

def q60 : Question :=
  { qid := 60, courseId := "c4", question := "Q60?", options := ["q", "r", "s", "t"],
    correctAnswer := 2, difficulty := "medium", explanation := "why60",
    timesUsed := 2, lastUsedAt := some 9000, isActiveInSession := true, activeSessionId := some 8 }

/-- A live class session (sid 8) whose history has `q60` broadcast twice
(at 1000 and again at 9000) with another question in between. -/
def sClassD : QuizSession :=
  { sid := 8, quizCode := "CS_888888", sessionType := SessionType.cls,
    questionId := none, activeQuestionId := some 60,
    questionsHistory := [⟨60, 1000⟩, ⟨61, 5000⟩, ⟨60, 9000⟩],
    duration := 7200, startedAt := 0, expiresAt := 7200000,
    status := SessionStatus.active, createdBy := "d@x", courseId := "c4",
    studentsJoined := [] }

def stC10 : Store := { sessions := [sClassD], questions := [q60], submissions := [] }

/-- An expired session still holding code `123456` (the C4 failing input). -/
def sExpired : QuizSession :=
  { sSingle with status := SessionStatus.expired }

def stC4 : Store := { sessions := [sExpired], questions := [q10], submissions := [] }

/-- A class store in which student `s@x` already submitted the currently
active question (for the `submitted` view). -/
def stC8 : Store :=
  { sessions := [sClassD], questions := [q60],
    submissions := [{ quizSessionId := 8, questionId := 60, studentEmail := "s@x",
                      studentName := "S", selectedOption := 0, isCorrect := false,
                      timeTaken := 4, submittedAt := 9500 }] }

/-- A class session that is `active` in storage with no active question. -/
def sClassE : QuizSession :=
  { sClassB with sid := 7, quizCode := "CS_777777", status := SessionStatus.active }

def stC9 : Store := { sessions := [sClassE], questions := [], submissions := [] }

/-! ### Helper lemmas -/

theorem findSessionByCode_mem {st : Store} {code : String} {s : QuizSession}
    (h : findSessionByCode st code = some s) : s ∈ st.sessions :=
  List.mem_of_find?_eq_some h

theorem findQuestionById_mem {st : Store} {qid : Nat} {q : Question}
    (h : findQuestionById st qid = some q) : q ∈ st.questions :=
  List.mem_of_find?_eq_some h

theorem findQuestionById_qid {st : Store} {qid : Nat} {q : Question}
    (h : findQuestionById st qid = some q) : q.qid = qid := by
  have := List.find?_some h
  simpa using this

theorem saveQuestion_key {st : Store} {v : Question} :
    ∀ x ∈ (saveQuestion st v).questions, x.qid = v.qid → x = v := by
  intro x hx hk
  simp only [saveQuestion, List.mem_map] at hx
  obtain ⟨y, _, hxy⟩ := hx
  by_cases h : y.qid = v.qid
  · rw [if_pos h] at hxy; exact hxy.symm
  · rw [if_neg h] at hxy; subst hxy; exact absurd hk h

theorem saveQuestion_frame {st : Store} {v : Question} :
    ∀ x ∈ (saveQuestion st v).questions, x.qid ≠ v.qid → x ∈ st.questions := by
  intro x hx hk
  simp only [saveQuestion, List.mem_map] at hx
  obtain ⟨y, hy, hxy⟩ := hx
  by_cases h : y.qid = v.qid
  · rw [if_pos h] at hxy; subst hxy; exact absurd rfl hk
  · rw [if_neg h] at hxy; subst hxy; exact hy

theorem saveQuestion_mem {st : Store} {v : Question}
    (h : ∃ y ∈ st.questions, y.qid = v.qid) : v ∈ (saveQuestion st v).questions := by
  obtain ⟨y, hy, hk⟩ := h
  simp only [saveQuestion, List.mem_map]
  exact ⟨y, hy, if_pos hk⟩

theorem saveQuestion_sessions (st : Store) (v : Question) :
    (saveQuestion st v).sessions = st.sessions := rfl

theorem saveQuestion_submissions (st : Store) (v : Question) :
    (saveQuestion st v).submissions = st.submissions := rfl

theorem saveSession_key {st : Store} {v : QuizSession} :
    ∀ x ∈ (saveSession st v).sessions, x.sid = v.sid → x = v := by
  intro x hx hk
  simp only [saveSession, List.mem_map] at hx
  obtain ⟨y, _, hxy⟩ := hx
  by_cases h : y.sid = v.sid
  · rw [if_pos h] at hxy; exact hxy.symm
  · rw [if_neg h] at hxy; subst hxy; exact absurd hk h

theorem saveSession_mem {st : Store} {v : QuizSession}
    (h : ∃ y ∈ st.sessions, y.sid = v.sid) : v ∈ (saveSession st v).sessions := by
  obtain ⟨y, hy, hk⟩ := h
  simp only [saveSession, List.mem_map]
  exact ⟨y, hy, if_pos hk⟩

theorem saveSession_questions (st : Store) (v : QuizSession) :
    (saveSession st v).questions = st.questions := rfl

theorem saveSession_submissions (st : Store) (v : QuizSession) :
    (saveSession st v).submissions = st.submissions := rfl

/-- C7: Session creation fails with `InvalidInput` exactly when the duration is
outside the type's bounds: 30-600 s for single sessions, 1800-10800 s for class
sessions; inside the bounds the duration check passes (no `InvalidInput`). -/
theorem C7_duration_bounds :
    ∀ (st : Store) (qid : Nat) (d : Int) (cid code caller : String) (courseExists : Bool)
      (sid : Nat) (now : Int),
      ((createSingleRoute st (some qid) (some d) code caller sid now).1 =
          RouteResult.err 400 QuizError.InvalidInput ↔ (d < 30 ∨ d > 600)) ∧
      ((createSingleRoute st (some qid) (some d) code caller sid now).1 =
          RouteResult.err 400 QuizError.InvalidInput →
        (createSingleRoute st (some qid) (some d) code caller sid now).2 = st) ∧
      ((createClassRoute st (some cid) (some d) courseExists code caller sid now).1 =
          RouteResult.err 400 QuizError.InvalidInput ↔ (d < 1800 ∨ d > 10800)) ∧
      ((createClassRoute st (some cid) (some d) courseExists code caller sid now).1 =
          RouteResult.err 400 QuizError.InvalidInput →
        (createClassRoute st (some cid) (some d) courseExists code caller sid now).2 = st) := by
  intro st qid d cid code caller courseExists sid now
  have single : ∀ P : Prop, (d = 0 ∨ d < 30 ∨ d > 600 → P) →
      (¬(d = 0 ∨ d < 30 ∨ d > 600) → P) → P := fun P h1 h2 => by
    by_cases h : d = 0 ∨ d < 30 ∨ d > 600
    · exact h1 h
    · exact h2 h
  refine ⟨?_, ?_, ?_, ?_⟩
  · simp only [createSingleRoute]
    refine single _ (fun h => ?_) (fun h => ?_)
    · rw [if_pos h]
      exact ⟨fun _ => by omega, fun _ => rfl⟩
    · rw [if_neg h]
      have hd : ¬(d < 30 ∨ d > 600) := by omega
      simp only [hd, iff_false]
      split
      · simp
      · split <;> simp
  · simp only [createSingleRoute]
    refine single _ (fun h => ?_) (fun h => ?_)
    · rw [if_pos h]; exact fun _ => rfl
    · rw [if_neg h]
      intro hres
      exfalso
      revert hres
      split
      · simp
      · split <;> simp
  · simp only [createClassRoute]
    by_cases h : d = 0 ∨ d < 1800 ∨ d > 10800
    · rw [if_pos h]
      exact ⟨fun _ => by omega, fun _ => rfl⟩
    · rw [if_neg h]
      have hd : ¬(d < 1800 ∨ d > 10800) := by omega
      simp only [hd, iff_false]
      cases courseExists
      · simp
      · simp only [Bool.not_true, Bool.false_eq_true, if_false]
        split <;> simp
  · simp only [createClassRoute]
    by_cases h : d = 0 ∨ d < 1800 ∨ d > 10800
    · rw [if_pos h]; exact fun _ => rfl
    · rw [if_neg h]
      intro hres
      exfalso
      revert hres
      cases courseExists
      · simp
      · simp only [Bool.not_true, Bool.false_eq_true, if_false]
        split <;> simp

/-- C7 witness: duration 700 is rejected for a single session and 700 is also
out of class bounds at the low end; bound results instantiated at `st0`. -/
theorem C7_duration_bounds_witness :
    (createSingleRoute st0 (some 10) (some 700) "654321" "t@x" 2 0).1 =
      RouteResult.err 400 QuizError.InvalidInput ∧
    (createSingleRoute st0 (some 10) (some 700) "654321" "t@x" 2 0).2 = st0 ∧
    ¬((createSingleRoute st0 (some 10) (some 60) "654321" "t@x" 2 0).1 =
      RouteResult.err 400 QuizError.InvalidInput) ∧
    (createClassRoute st0 (some "c1") (some 700) true "CS_654321" "t@x" 2 0).1 =
      RouteResult.err 400 QuizError.InvalidInput := by
  refine ⟨?_, ?_, ?_, ?_⟩
  · exact (C7_duration_bounds st0 10 700 "c1" "654321" "t@x" true 2 0).1.mpr (by omega)
  · exact (C7_duration_bounds st0 10 700 "c1" "654321" "t@x" true 2 0).2.1
      ((C7_duration_bounds st0 10 700 "c1" "654321" "t@x" true 2 0).1.mpr (by omega))
  · intro h
    have := (C7_duration_bounds st0 10 60 "c1" "654321" "t@x" true 2 0).1.mp h
    omega
  · exact (C7_duration_bounds st0 10 700 "c1" "CS_654321" "t@x" true 2 0).2.2.1.mpr (by omega)

/-- C4: the code is wrong: `generateUniqueCode` deliberately ignores expired
sessions when checking a candidate (so an expired session's code can be drawn),
but the schema-level unique index on `quizCode` then rejects storing a new
session under that code (error 11000, surfaced as a 500). -/
theorem C4_code_reuse_blocked :
    sExpired.status = SessionStatus.expired ∧
    sExpired.quizCode = "123456" ∧
    generateUniqueCode stC4 ["123456"] = some "123456" ∧
    createSingleRoute stC4 (some 10) (some 60) "123456" "t@x" 2 100000 =
      (RouteResult.err 500 QuizError.ServerError, stC4) := by
  decide

/-- C2 counterexample: question `q30` is reserved by session 3, yet session 4's
creator broadcasts it successfully - no `AlreadyReserved` failure - and the
reservation is silently overwritten to session 4 (with `timesUsed` bumped). -/
theorem C2_counterexample :
    q30.activeSessionId = some 3 ∧ q30.isActiveInSession = true ∧ sClassB.sid = 4 ∧
    isExpired sClassB 1000 = false ∧
    (broadcastRoute stC2 "CS_444444" 30 "b@x" 1000).1 = RouteResult.ok (30, 0) ∧
    findQuestionById (broadcastRoute stC2 "CS_444444" 30 "b@x" 1000).2 30 =
      some { q30 with isActiveInSession := true, activeSessionId := some 4,
                      timesUsed := 8, lastUsedAt := some 1000 } := by
  decide

/-- C3 counterexample: submit on a session past `expiresAt` reports `Expired`
but leaves the stored status `active` (no side-effecting transition), and at
`now = expiresAt` exactly (so `now ≥ expiresAt`) the observer does NOT see
`expired` - the submission is accepted. -/
theorem C3_counterexample :
    ((60001 : Int) > sSingle.expiresAt ∧ sSingle.status ≠ SessionStatus.expired) ∧
    (submitAnswer st0 "123456" (some 2) "s@x" "S" 60001).1.errorCode = some QuizError.Expired ∧
    (submitAnswer st0 "123456" (some 2) "s@x" "S" 60001).2 = st0 ∧
    ((60000 : Int) ≥ sSingle.expiresAt ∧
      (submitAnswer st0 "123456" (some 2) "s@x" "S" 60000).1.success = true ∧
      (submitAnswer st0 "123456" (some 2) "s@x" "S" 60000).1.errorCode ≠ some QuizError.Expired) := by
  decide

theorem isExpired_iff {s : QuizSession} {now : Int} :
    isExpired s now = true ↔ now > s.expiresAt := by
  simp [isExpired]

theorem insertSubmission_error {st : Store} {sub : Submission} {e : QuizError}
    (h : insertSubmission st sub = Except.error e) : e = QuizError.DuplicateSubmission := by
  unfold insertSubmission at h
  split at h
  · injection h with h
    exact h.symm
  · cases h

/-- The broadcast route under its success conditions, written out. -/
theorem broadcastRoute_eq {st : Store} {code : String} {qid : Nat} {caller : String}
    {now : Int} {s : QuizSession} {q : Question}
    (hfind : findSessionByCode st code = some s)
    (hcls : s.sessionType = SessionType.cls)
    (hown : s.createdBy = caller)
    (hexp : isExpired s now = false)
    (hfq : findQuestionById st qid = some q) :
    broadcastRoute st code qid caller now =
      (RouteResult.ok (q.qid, s.studentsJoined.length),
       saveQuestion
         (saveQuestion
           (saveSession
             (releasePreviousQuestion st s.activeQuestionId)
             (broadcastQuestionMethod s qid now))
           (activateInSession q s.sid))
         (markAsUsed (activateInSession q s.sid) now)) := by
  simp only [broadcastRoute, hfind]
  rw [if_neg (by simp [hcls]), if_neg (by simp [hown]), if_neg (by simp [hexp]), hfq]

/-- C2 (amended): the reservation is a blind overwrite, not a guarded lock:
the broadcast route never fails with `AlreadyReserved`, and broadcasting a
question that is currently reserved by a DIFFERENT session succeeds and
silently re-points the reservation at the broadcasting session. -/
theorem C2_reserve_overwrites :
    (∀ (st : Store) (code : String) (qid : Nat) (caller : String) (now : Int) (n : Nat),
      (broadcastRoute st code qid caller now).1 ≠ RouteResult.err n QuizError.AlreadyReserved) ∧
    (∀ (st : Store) (code : String) (qid : Nat) (caller : String) (now : Int)
        (s : QuizSession) (q : Question),
      findSessionByCode st code = some s →
      s.sessionType = SessionType.cls →
      s.createdBy = caller →
      isExpired s now = false →
      findQuestionById st qid = some q →
      (broadcastRoute st code qid caller now).1 =
        RouteResult.ok (q.qid, s.studentsJoined.length) ∧
      ∀ x ∈ (broadcastRoute st code qid caller now).2.questions, x.qid = q.qid →
        x.isActiveInSession = true ∧ x.activeSessionId = some s.sid) := by
  constructor
  · intro st code qid caller now n
    simp only [broadcastRoute]
    split
    · simp
    · split
      · simp
      · split
        · simp
        · split
          · simp
          · split
            · simp
            · simp
  · intro st code qid caller now s q hfind hcls hown hexp hfq
    have hroute := broadcastRoute_eq hfind hcls hown hexp hfq
    constructor
    · rw [hroute]
    · intro x hx hk
      rw [hroute] at hx
      have hx2 := saveQuestion_key x hx hk
      subst hx2
      exact ⟨rfl, rfl⟩

/-- C2 witness: the amended theorem applied at the concrete store `stC2`, in
which `q30` is reserved by session 3 while session 4 broadcasts it. -/
theorem C2_reserve_overwrites_witness :
    (broadcastRoute stC2 "CS_444444" 30 "b@x" 1000).1 ≠
      RouteResult.err 409 QuizError.AlreadyReserved ∧
    (broadcastRoute stC2 "CS_444444" 30 "b@x" 1000).1 =
      RouteResult.ok (q30.qid, sClassB.studentsJoined.length) ∧
    ∀ x ∈ (broadcastRoute stC2 "CS_444444" 30 "b@x" 1000).2.questions, x.qid = q30.qid →
      x.isActiveInSession = true ∧ x.activeSessionId = some sClassB.sid :=
  ⟨C2_reserve_overwrites.1 stC2 "CS_444444" 30 "b@x" 1000 409,
   C2_reserve_overwrites.2 stC2 "CS_444444" 30 "b@x" 1000 sClassB q30
     (by decide) (by decide) (by decide) (by decide) (by decide)⟩

/-- C3 (amended): expiry is detected lazily and strictly (`now > expiresAt`,
not `now ≥ expiresAt`); JOIN persists the `expired` status as a side effect,
but POLL answers `expired` without mutating the store, and SUBMIT fails with
`Expired` without mutating the store. -/
theorem C3_lazy_expiry_amended :
    (∀ (st : Store) (code email name : String) (now : Int) (s : QuizSession),
      validCodeFormat code = true →
      findSessionByCode st code = some s →
      isExpired s now = true →
      joinSession st code email name now =
        (errResp 410 QuizError.Expired,
         saveSession st { s with status := SessionStatus.expired }) ∧
      ∀ x ∈ (joinSession st code email name now).2.sessions, x.sid = s.sid →
        x.status = SessionStatus.expired) ∧
    (∀ (st : Store) (code email : String) (now : Int) (s : QuizSession),
      findSessionByCode st code = some s →
      s.sessionType = SessionType.cls →
      isExpired s now = true →
      pollSession st code email now =
        ({ Response.empty with httpStatus := 200, statusStr := some "expired" }, st)) ∧
    (∀ (st : Store) (code : String) (opt : Int) (email name : String) (now : Int)
        (s : QuizSession),
      (opt = 0 ∨ opt = 1 ∨ opt = 2 ∨ opt = 3) →
      code ≠ "" →
      findSessionByCode st code = some s →
      ((submitAnswer st code (some opt) email name now).1.errorCode = some QuizError.Expired
        ↔ now > s.expiresAt) ∧
      (now > s.expiresAt →
        submitAnswer st code (some opt) email name now = (errResp 410 QuizError.Expired, st))) := by
  refine ⟨?_, ?_, ?_⟩
  · intro st code email name now s hvalid hfind hexp
    have h1 : joinSession st code email name now =
        (errResp 410 QuizError.Expired,
         saveSession st { s with status := SessionStatus.expired }) := by
      simp only [joinSession, hvalid, Bool.not_true, Bool.false_eq_true, if_false, hfind, hexp,
        if_true]
    refine ⟨h1, ?_⟩
    intro x hx hk
    rw [h1] at hx
    have hx2 := saveSession_key x hx hk
    subst hx2
    rfl
  · intro st code email now s hfind hcls hexp
    simp only [pollSession, hfind]
    rw [if_neg (by simp [hcls]), if_pos hexp]
  · intro st code opt email name now s hopt hcode hfind
    have hb : (opt == 0 || opt == 1 || opt == 2 || opt == 3) = true := by
      rcases hopt with h | h | h | h <;> simp [h]
    have hc : (code == "") = false := by
      simp [hcode]
    have hred : submitAnswer st code (some opt) email name now =
        (if isExpired s now = true then (errResp 410 QuizError.Expired, st)
         else
          match (if s.sessionType = SessionType.single then s.questionId else s.activeQuestionId) with
          | none => (errResp 400 QuizError.NoActiveQuestion, st)
          | some qid =>
            match findQuestionById st qid with
            | none => (errResp 404 QuizError.NotFound, st)
            | some q =>
              match findSubmission st s.sid q.qid email with
              | some _ => (errResp 409 QuizError.DuplicateSubmission, st)
              | none =>
                let broadcastTime : Int :=
                  if s.sessionType = SessionType.single then s.startedAt
                  else classBroadcastTime s q.qid
                let timeTaken := Int.fdiv (now - broadcastTime) 1000
                let correct : Bool := opt == (q.correctAnswer : Int)
                match insertSubmission st ⟨s.sid, q.qid, email, name, opt, correct, timeTaken, now⟩ with
                | Except.error e => (errResp 409 e, st)
                | Except.ok st1 =>
                  ({ Response.empty with
                      httpStatus := 200, success := true,
                      isCorrect := some correct,
                      correctAnswer := some q.correctAnswer,
                      correctOption := some (q.options.getD q.correctAnswer ""),
                      explanation := some q.explanation,
                      timeTaken := some timeTaken }, st1)) := by
      simp only [submitAnswer, hb, hc, Bool.not_true, Bool.false_eq_true, if_false, hfind]
    by_cases hx : now > s.expiresAt
    · have hexp : isExpired s now = true := isExpired_iff.mpr hx
      rw [hred, if_pos hexp]
      exact ⟨⟨fun _ => hx, fun _ => rfl⟩, fun _ => rfl⟩
    · have hexp : isExpired s now = false := by
        rcases Bool.eq_false_or_eq_true (isExpired s now) with h | h
        · exact absurd (isExpired_iff.mp h) hx
        · exact h
      refine ⟨⟨?_, fun h => absurd h hx⟩, fun h => absurd h hx⟩
      rw [hred, if_neg (by simp [hexp])]
      by_cases hst : s.sessionType = SessionType.single
      · rw [if_pos hst]
        cases hq0 : s.questionId with
        | none => simp [hq0, errResp, Response.empty]
        | some qid =>
          cases hfq : findQuestionById st qid with
          | none => simp [hq0, hfq, errResp, Response.empty]
          | some q =>
            cases hfs : findSubmission st s.sid q.qid email with
            | some x => simp [hq0, hfq, hfs, errResp, Response.empty]
            | none =>
              simp only [hq0, hfq, hfs]
              rw [if_pos hst]
              cases hins : insertSubmission st ⟨s.sid, q.qid, email, name, opt,
                  opt == (q.correctAnswer : Int), Int.fdiv (now - s.startedAt) 1000, now⟩ with
              | error e =>
                have he := insertSubmission_error hins
                subst he
                simp [hins, errResp, Response.empty]
              | ok st1 => simp [hins, Response.empty]
      · rw [if_neg hst]
        cases hq0 : s.activeQuestionId with
        | none => simp [hq0, errResp, Response.empty]
        | some qid =>
          cases hfq : findQuestionById st qid with
          | none => simp [hq0, hfq, errResp, Response.empty]
          | some q =>
            cases hfs : findSubmission st s.sid q.qid email with
            | some x => simp [hq0, hfq, hfs, errResp, Response.empty]
            | none =>
              simp only [hq0, hfq, hfs]
              rw [if_neg hst]
              cases hins : insertSubmission st ⟨s.sid, q.qid, email, name, opt,
                  opt == (q.correctAnswer : Int),
                  Int.fdiv (now - classBroadcastTime s q.qid) 1000, now⟩ with
              | error e =>
                have he := insertSubmission_error hins
                subst he
                simp [hins, errResp, Response.empty]
              | ok st1 => simp [hins, Response.empty]

/-- C3 (amended) witness: the amended theorem applied at `stC10` (join / poll)
and `st0` (submit) one millisecond past expiry and at the boundary. -/
theorem C3_lazy_expiry_amended_witness :
    (joinSession stC10 "CS_888888" "s@x" "S" 7200001 =
       (errResp 410 QuizError.Expired,
        saveSession stC10 { sClassD with status := SessionStatus.expired }) ∧
     ∀ x ∈ (joinSession stC10 "CS_888888" "s@x" "S" 7200001).2.sessions, x.sid = sClassD.sid →
       x.status = SessionStatus.expired) ∧
    pollSession stC10 "CS_888888" "s@x" 7200001 =
      ({ Response.empty with httpStatus := 200, statusStr := some "expired" }, stC10) ∧
    ((submitAnswer st0 "123456" (some 2) "s@x" "S" 60001).1.errorCode = some QuizError.Expired
      ↔ (60001 : Int) > sSingle.expiresAt) ∧
    ((60001 : Int) > sSingle.expiresAt →
      submitAnswer st0 "123456" (some 2) "s@x" "S" 60001 = (errResp 410 QuizError.Expired, st0)) :=
  ⟨C3_lazy_expiry_amended.1 stC10 "CS_888888" "s@x" "S" 7200001 sClassD
     (by decide) (by decide) (by decide),
   C3_lazy_expiry_amended.2.1 stC10 "CS_888888" "s@x" 7200001 sClassD
     (by decide) (by decide) (by decide),
   (C3_lazy_expiry_amended.2.2 st0 "123456" 2 "s@x" "S" 60001 sSingle
     (by decide) (by decide) (by decide)).1,
   (C3_lazy_expiry_amended.2.2 st0 "123456" 2 "s@x" "S" 60001 sSingle
     (by decide) (by decide) (by decide)).2⟩

theorem addStudent_status (s : QuizSession) (email name : String) (now : Int) :
    (addStudent s email name now).status = s.status := by
  unfold addStudent; split <;> rfl

theorem addStudent_activeQuestionId (s : QuizSession) (email name : String) (now : Int) :
    (addStudent s email name now).activeQuestionId = s.activeQuestionId := by
  unfold addStudent; split <;> rfl

theorem addStudent_sessionType (s : QuizSession) (email name : String) (now : Int) :
    (addStudent s email name now).sessionType = s.sessionType := by
  unfold addStudent; split <;> rfl

theorem addStudent_sid (s : QuizSession) (email name : String) (now : Int) :
    (addStudent s email name now).sid = s.sid := by
  unfold addStudent; split <;> rfl

theorem addStudent_expiresAt (s : QuizSession) (email name : String) (now : Int) :
    (addStudent s email name now).expiresAt = s.expiresAt := by
  unfold addStudent; split <;> rfl

theorem joinClassView_waiting {st : Store} {s : QuizSession} {email : String}
    (hact : s.status = SessionStatus.active) (hq : s.activeQuestionId = none) :
    joinClassView st s email =
      { Response.empty with httpStatus := 200, success := true, statusStr := some "waiting" } := by
  simp [joinClassView, hact, hq]

/-- C9: a non-expired class session whose stored status is `active` with a null
`activeQuestionId` yields the `waiting` view (no question payload, no error)
from both join and poll. -/
theorem C9_active_without_question_is_waiting :
    ∀ (st : Store) (code email name : String) (now : Int) (s : QuizSession),
      validCodeFormat code = true →
      findSessionByCode st code = some s →
      s.sessionType = SessionType.cls →
      isExpired s now = false →
      s.status = SessionStatus.active →
      s.activeQuestionId = none →
      (joinSession st code email name now).1 =
        { Response.empty with httpStatus := 200, success := true, statusStr := some "waiting" } ∧
      (pollSession st code email now).1 =
        { Response.empty with httpStatus := 200, statusStr := some "waiting" } := by
  intro st code email name now s hvalid hfind hcls hexp hact hq
  constructor
  · have h1 : (joinSession st code email name now).1 =
        joinClassView (saveSession st (addStudent s email name now))
          (addStudent s email name now) email := by
      simp only [joinSession, hvalid, Bool.not_true, Bool.false_eq_true, if_false, hfind, hexp,
        hcls]
      rw [if_neg (by decide)]
    rw [h1, joinClassView_waiting]
    · rw [addStudent_status]; exact hact
    · rw [addStudent_activeQuestionId]; exact hq
  · simp only [pollSession, hfind, hcls, hexp, hact, hq]
    simp

/-- C9 witness: the concrete class session `sClassE` (active, no active
question) joined and polled at time 1000. -/
theorem C9_active_without_question_is_waiting_witness :
    (joinSession stC9 "CS_777777" "s@x" "S" 1000).1 =
      { Response.empty with httpStatus := 200, success := true, statusStr := some "waiting" } ∧
    (pollSession stC9 "CS_777777" "s@x" 1000).1 =
      { Response.empty with httpStatus := 200, statusStr := some "waiting" } :=
  C9_active_without_question_is_waiting stC9 "CS_777777" "s@x" "S" 1000 sClassE
    (by decide) (by decide) (by decide) (by decide) (by decide) (by decide)


/-- C8: the correct-answer index, correct-option text and explanation are only
ever carried by the response to a successful submit: every join or poll
response has those fields empty, the `submitted` view carries no question
payload, and a failed submit carries no answer fields either, while a
successful submit carries all of them. -/
theorem C8_answers_only_after_submit :
    ∀ (st : Store) (code email name : String) (now : Int) (opt : Option Int),
      ((joinSession st code email name now).1.correctAnswer = none ∧
       (joinSession st code email name now).1.correctOption = none ∧
       (joinSession st code email name now).1.explanation = none ∧
       ((joinSession st code email name now).1.statusStr = some "submitted" →
         (joinSession st code email name now).1.questionText = none ∧
         (joinSession st code email name now).1.options = none ∧
         (joinSession st code email name now).1.questionIdOut = none)) ∧
      ((pollSession st code email now).1.correctAnswer = none ∧
       (pollSession st code email now).1.correctOption = none ∧
       (pollSession st code email now).1.explanation = none ∧
       ((pollSession st code email now).1.statusStr = some "submitted" →
         (pollSession st code email now).1.questionText = none ∧
         (pollSession st code email now).1.options = none ∧
         (pollSession st code email now).1.questionIdOut = none)) ∧
      (((submitAnswer st code opt email name now).1.success = false →
         (submitAnswer st code opt email name now).1.correctAnswer = none ∧
         (submitAnswer st code opt email name now).1.correctOption = none ∧
         (submitAnswer st code opt email name now).1.explanation = none) ∧
       ((submitAnswer st code opt email name now).1.success = true →
         (submitAnswer st code opt email name now).1.correctAnswer.isSome ∧
         (submitAnswer st code opt email name now).1.correctOption.isSome ∧
         (submitAnswer st code opt email name now).1.explanation.isSome ∧
         (submitAnswer st code opt email name now).1.isCorrect.isSome)) := by
  intro st code email name now opt
  refine ⟨?_, ?_, ?_⟩
  · simp only [joinSession, joinSingleView, joinClassView]
    repeat' split
    all_goals simp [errResp, Response.empty]
  · simp only [pollSession]
    repeat' split
    all_goals simp [errResp, Response.empty]
  · simp only [submitAnswer]
    repeat' split
    all_goals simp [errResp, Response.empty]

/-- C8 witness: the property instantiated at `stC8`, where the student has
already submitted the active question, so join yields the `submitted` view and
the implication's hypothesis is discharged concretely. -/
theorem C8_answers_only_after_submit_witness :
    (joinSession stC8 "CS_888888" "s@x" "S" 10000).1.questionText = none ∧
    (joinSession stC8 "CS_888888" "s@x" "S" 10000).1.options = none ∧
    (pollSession stC8 "CS_888888" "s@x" 10000).1.correctAnswer = none ∧
    ((submitAnswer stC8 "CS_888888" (some 9) "s@x" "S" 10000).1.correctAnswer = none ∧
     (submitAnswer stC8 "CS_888888" (some 9) "s@x" "S" 10000).1.correctOption = none ∧
     (submitAnswer stC8 "CS_888888" (some 9) "s@x" "S" 10000).1.explanation = none) := by
  have h := C8_answers_only_after_submit stC8 "CS_888888" "s@x" "S" 10000 (some 9)
  refine ⟨?_, ?_, h.2.1.1, h.2.2.1 (by decide)⟩
  · exact (h.1.2.2.2 (by decide)).1
  · exact (h.1.2.2.2 (by decide)).2.1


theorem find?_min_broadcast {l : List HistoryEntry} {qid : Nat}
    (hs : List.Pairwise (fun a b => a.broadcastedAt ≤ b.broadcastedAt) l) :
    ∀ e, l.find? (fun h => h.questionId == qid) = some e →
      ∀ h ∈ l, h.questionId = qid → e.broadcastedAt ≤ h.broadcastedAt := by
  induction l with
  | nil =>
    intro e he
    cases he
  | cons a t ih =>
    intro e he h hh hq
    by_cases hpa : (a.questionId == qid) = true
    · have hfa : List.find? (fun x => x.questionId == qid) (a :: t) = some a :=
        List.find?_cons_of_pos t hpa
      rw [hfa] at he
      injection he with he
      subst he
      rcases List.mem_cons.mp hh with rfl | hht
      · exact le_refl _
      · exact (List.pairwise_cons.mp hs).1 h hht
    · have hfa : List.find? (fun x => x.questionId == qid) (a :: t) =
          List.find? (fun x => x.questionId == qid) t :=
        List.find?_cons_of_neg t hpa
      rw [hfa] at he
      rcases List.mem_cons.mp hh with rfl | hht
      · exact absurd (by simp [hq]) hpa
      · exact ih (List.pairwise_cons.mp hs).2 e he h hht hq

/-- The submit route on a class session with an unanswered active question:
the exact response and the exact stored submission. -/
theorem submitAnswer_class_success (st : Store) (code : String) (opt : Int)
    (email name : String) (now : Int) (s : QuizSession) (qid : Nat) (q : Question)
    (hopt : opt = 0 ∨ opt = 1 ∨ opt = 2 ∨ opt = 3)
    (hcode : code ≠ "")
    (hfind : findSessionByCode st code = some s)
    (hcls : s.sessionType = SessionType.cls)
    (hexp : isExpired s now = false)
    (hq0 : s.activeQuestionId = some qid)
    (hfq : findQuestionById st qid = some q)
    (hfs : findSubmission st s.sid q.qid email = none) :
    submitAnswer st code (some opt) email name now =
      ({ Response.empty with
          httpStatus := 200, success := true,
          isCorrect := some (opt == (q.correctAnswer : Int)),
          correctAnswer := some q.correctAnswer,
          correctOption := some (q.options.getD q.correctAnswer ""),
          explanation := some q.explanation,
          timeTaken := some (Int.fdiv (now - classBroadcastTime s q.qid) 1000) },
       { st with
          submissions := st.submissions ++
            [⟨s.sid, q.qid, email, name, opt, opt == (q.correctAnswer : Int),
              Int.fdiv (now - classBroadcastTime s q.qid) 1000, now⟩] }) := by
  have hb : (opt == 0 || opt == 1 || opt == 2 || opt == 3) = true := by
    rcases hopt with h | h | h | h <;> simp [h]
  have hc : (code == "") = false := by simp [hcode]
  have hst : ¬ s.sessionType = SessionType.single := by simp [hcls]
  have hins : insertSubmission st ⟨s.sid, q.qid, email, name, opt,
      opt == (q.correctAnswer : Int),
      Int.fdiv (now - classBroadcastTime s q.qid) 1000, now⟩ =
      Except.ok { st with submissions := st.submissions ++
        [⟨s.sid, q.qid, email, name, opt, opt == (q.correctAnswer : Int),
          Int.fdiv (now - classBroadcastTime s q.qid) 1000, now⟩] } := by
    have hany : (st.submissions.any (fun x =>
        x.quizSessionId == s.sid && x.questionId == q.qid && x.studentEmail == email)) = false := by
      rw [List.any_eq_false]
      intro x hx
      exact List.find?_eq_none.mp hfs x hx
    simp only [insertSubmission]
    rw [if_neg (by simp [hany])]
  simp only [submitAnswer, hb, hc, Bool.not_true, Bool.false_eq_true, if_false, hfind]
  rw [if_neg (by simp [hexp]), if_neg hst]
  simp only [hq0, hfq, hfs]
  rw [if_neg hst]
  simp only [hins]

/-- C10: an accepted class-session submission computes `timeTaken` as
`floor((now - t) / 1000)` where `t` is the `broadcastedAt` of the FIRST
matching `questionsHistory` entry (hence the earliest broadcast when the
history timestamps are in order and the question was broadcast repeatedly),
falling back to `startedAt` when no entry matches. -/
theorem C10_timeTaken_from_first_broadcast :
    ∀ (st : Store) (code : String) (opt : Int) (email name : String) (now : Int)
      (s : QuizSession) (qid : Nat) (q : Question),
      (opt = 0 ∨ opt = 1 ∨ opt = 2 ∨ opt = 3) →
      code ≠ "" →
      findSessionByCode st code = some s →
      s.sessionType = SessionType.cls →
      isExpired s now = false →
      s.activeQuestionId = some qid →
      findQuestionById st qid = some q →
      findSubmission st s.sid q.qid email = none →
      ((submitAnswer st code (some opt) email name now).2.submissions =
        st.submissions ++ [⟨s.sid, q.qid, email, name, opt, opt == (q.correctAnswer : Int),
          Int.fdiv (now - classBroadcastTime s q.qid) 1000, now⟩] ∧
       (submitAnswer st code (some opt) email name now).1.timeTaken =
        some (Int.fdiv (now - classBroadcastTime s q.qid) 1000) ∧
       (∀ e, s.questionsHistory.find? (fun h => h.questionId == q.qid) = some e →
         classBroadcastTime s q.qid = e.broadcastedAt) ∧
       ((∀ h ∈ s.questionsHistory, h.questionId ≠ q.qid) →
         classBroadcastTime s q.qid = s.startedAt) ∧
       (List.Pairwise (fun a b => a.broadcastedAt ≤ b.broadcastedAt) s.questionsHistory →
         ∀ h ∈ s.questionsHistory, h.questionId = q.qid →
           classBroadcastTime s q.qid ≤ h.broadcastedAt)) := by
  intro st code opt email name now s qid q hopt hcode hfind hcls hexp hq0 hfq hfs
  have hmain := submitAnswer_class_success st code opt email name now s qid q
    hopt hcode hfind hcls hexp hq0 hfq hfs
  refine ⟨by rw [hmain], by rw [hmain], ?_, ?_, ?_⟩
  · intro e he
    simp [classBroadcastTime, he]
  · intro hnone
    have : s.questionsHistory.find? (fun h => h.questionId == q.qid) = none := by
      rw [List.find?_eq_none]
      intro x hx
      simp [hnone x hx]
    simp [classBroadcastTime, this]
  · intro hs h hh hq
    cases he : s.questionsHistory.find? (fun x => x.questionId == q.qid) with
    | none =>
      exact absurd hq (by simpa using List.find?_eq_none.mp he h hh)
    | some e =>
      have h1 : classBroadcastTime s q.qid = e.broadcastedAt := by
        simp [classBroadcastTime, he]
      rw [h1]
      exact find?_min_broadcast hs e he h hh hq

/-- C10 witness: in `stC10`, question 60 was broadcast at 1000 and again at
9000; a submission at 20000 is timed from the FIRST entry: 19 seconds. -/
theorem C10_timeTaken_from_first_broadcast_witness :
    (submitAnswer stC10 "CS_888888" (some 2) "s2@x" "S2" 20000).2.submissions =
      stC10.submissions ++ [⟨sClassD.sid, q60.qid, "s2@x", "S2", 2,
        (2 : Int) == (q60.correctAnswer : Int),
        Int.fdiv (20000 - classBroadcastTime sClassD q60.qid) 1000, 20000⟩] ∧
    (submitAnswer stC10 "CS_888888" (some 2) "s2@x" "S2" 20000).1.timeTaken =
      some (Int.fdiv (20000 - classBroadcastTime sClassD q60.qid) 1000) ∧
    classBroadcastTime sClassD q60.qid = 1000 ∧
    classBroadcastTime sClassD q60.qid ≤ 9000 := by
  have h := C10_timeTaken_from_first_broadcast stC10 "CS_888888" 2 "s2@x" "S2" 20000
    sClassD 60 q60 (by decide) (by decide) (by decide) (by decide) (by decide)
    (by decide) (by decide) (by decide)
  refine ⟨h.1, h.2.1, ?_, ?_⟩
  · have := h.2.2.1 ⟨60, 1000⟩ (by decide)
    simpa using this
  · have := h.2.2.2.2 (by decide) ⟨60, 9000⟩ (by decide) (by decide)
    simpa using this


theorem releasePreviousQuestion_sessions (st : Store) (aq : Option Nat) :
    (releasePreviousQuestion st aq).sessions = st.sessions := by
  cases aq with
  | none => rfl
  | some prev =>
    cases hpq : findQuestionById st prev <;>
      simp [releasePreviousQuestion, hpq, saveQuestion]

theorem releasePreviousQuestion_submissions (st : Store) (aq : Option Nat) :
    (releasePreviousQuestion st aq).submissions = st.submissions := by
  cases aq with
  | none => rfl
  | some prev =>
    cases hpq : findQuestionById st prev <;>
      simp [releasePreviousQuestion, hpq, saveQuestion]

theorem releasePreviousQuestion_released {st : Store} {prev : Nat} :
    ∀ x ∈ (releasePreviousQuestion st (some prev)).questions, x.qid = prev →
      x.isActiveInSession = false ∧ x.activeSessionId = none := by
  intro x hx hk
  simp only [releasePreviousQuestion] at hx
  cases hpq : findQuestionById st prev with
  | none =>
    rw [hpq] at hx
    have h2 := List.find?_eq_none.mp hpq x hx
    simp [hk] at h2
  | some pq =>
    rw [hpq] at hx
    have hqid : pq.qid = prev := findQuestionById_qid hpq
    have hx2 := saveQuestion_key x hx (hk.trans hqid.symm)
    subst hx2
    exact ⟨rfl, rfl⟩

/-- C5: on a non-expired class session, a broadcast by the creator releases the
previous active question's reservation (when distinct), reserves the new
question for this session, appends `(questionId, now)` to the history, sets
`activeQuestionId` and status `active`, and bumps `timesUsed` / `lastUsedAt`
exactly once; it fails `WrongType` for a non-class session, `NotOwner` for a
non-creator, and `Expired` for an expired session. -/
theorem C5_broadcast_effects :
    (∀ (st : Store) (code : String) (qid : Nat) (caller : String) (now : Int)
        (s : QuizSession),
      findSessionByCode st code = some s →
      s.sessionType ≠ SessionType.cls →
      broadcastRoute st code qid caller now = (RouteResult.err 400 QuizError.WrongType, st)) ∧
    (∀ (st : Store) (code : String) (qid : Nat) (caller : String) (now : Int)
        (s : QuizSession),
      findSessionByCode st code = some s →
      s.sessionType = SessionType.cls →
      s.createdBy ≠ caller →
      broadcastRoute st code qid caller now = (RouteResult.err 403 QuizError.NotOwner, st)) ∧
    (∀ (st : Store) (code : String) (qid : Nat) (caller : String) (now : Int)
        (s : QuizSession),
      findSessionByCode st code = some s →
      s.sessionType = SessionType.cls →
      s.createdBy = caller →
      isExpired s now = true →
      broadcastRoute st code qid caller now = (RouteResult.err 410 QuizError.Expired, st)) ∧
    (∀ (st : Store) (code : String) (qid : Nat) (caller : String) (now : Int)
        (s : QuizSession) (q : Question),
      findSessionByCode st code = some s →
      s.sessionType = SessionType.cls →
      s.createdBy = caller →
      isExpired s now = false →
      findQuestionById st qid = some q →
      (broadcastRoute st code qid caller now).1 =
        RouteResult.ok (q.qid, s.studentsJoined.length) ∧
      broadcastQuestionMethod s qid now ∈ (broadcastRoute st code qid caller now).2.sessions ∧
      (∀ x ∈ (broadcastRoute st code qid caller now).2.sessions, x.sid = s.sid →
        x.activeQuestionId = some qid ∧ x.status = SessionStatus.active ∧
        x.questionsHistory = s.questionsHistory ++ [⟨qid, now⟩]) ∧
      (∀ x ∈ (broadcastRoute st code qid caller now).2.questions, x.qid = q.qid →
        x.isActiveInSession = true ∧ x.activeSessionId = some s.sid ∧
        x.timesUsed = q.timesUsed + 1 ∧ x.lastUsedAt = some now) ∧
      (∀ prev, s.activeQuestionId = some prev → prev ≠ q.qid →
        ∀ x ∈ (broadcastRoute st code qid caller now).2.questions, x.qid = prev →
          x.isActiveInSession = false ∧ x.activeSessionId = none)) := by
  refine ⟨?_, ?_, ?_, ?_⟩
  · intro st code qid caller now s hfind hty
    simp only [broadcastRoute, hfind]
    rw [if_pos hty]
  · intro st code qid caller now s hfind hcls hno
    simp only [broadcastRoute, hfind]
    rw [if_neg (by simp [hcls]), if_pos hno]
  · intro st code qid caller now s hfind hcls hown hexp
    simp only [broadcastRoute, hfind]
    rw [if_neg (by simp [hcls]), if_neg (by simp [hown]), if_pos hexp]
  · intro st code qid caller now s q hfind hcls hown hexp hfq
    have hroute := broadcastRoute_eq hfind hcls hown hexp hfq
    refine ⟨by rw [hroute], ?_, ?_, ?_, ?_⟩
    · rw [hroute]
      show broadcastQuestionMethod s qid now ∈
        (saveSession (releasePreviousQuestion st s.activeQuestionId)
          (broadcastQuestionMethod s qid now)).sessions
      apply saveSession_mem
      refine ⟨s, ?_, rfl⟩
      rw [releasePreviousQuestion_sessions]
      exact findSessionByCode_mem hfind
    · intro x hx hk
      rw [hroute] at hx
      have hx2 := saveSession_key x hx hk
      subst hx2
      exact ⟨rfl, rfl, rfl⟩
    · intro x hx hk
      rw [hroute] at hx
      have hx2 := saveQuestion_key x hx hk
      subst hx2
      exact ⟨rfl, rfl, rfl, rfl⟩
    · intro prev hprev hne x hx hk
      rw [hroute] at hx
      have hxb : x.qid ≠ (markAsUsed (activateInSession q s.sid) now).qid := by
        show x.qid ≠ q.qid
        rw [hk]
        exact hne
      have hx3 := saveQuestion_frame x hx hxb
      have hxa : x.qid ≠ (activateInSession q s.sid).qid := by
        show x.qid ≠ q.qid
        rw [hk]
        exact hne
      have hx4 := saveQuestion_frame x hx3 hxa
      rw [saveSession_questions] at hx4
      rw [hprev] at hx4
      exact releasePreviousQuestion_released x hx4 hk

/-- C5 witness: the failure modes on concrete stores, and the full effect of
broadcasting `q41` into `sClassC` (which previously held `q40` active). -/
theorem C5_broadcast_effects_witness :
    broadcastRoute st0 "123456" 10 "t@x" 1000 =
      (RouteResult.err 400 QuizError.WrongType, st0) ∧
    broadcastRoute stC5 "CS_555555" 41 "z@x" 3000 =
      (RouteResult.err 403 QuizError.NotOwner, stC5) ∧
    broadcastRoute stC5 "CS_555555" 41 "c@x" 7200001 =
      (RouteResult.err 410 QuizError.Expired, stC5) ∧
    (broadcastRoute stC5 "CS_555555" 41 "c@x" 3000).1 =
      RouteResult.ok (q41.qid, sClassC.studentsJoined.length) ∧
    broadcastQuestionMethod sClassC 41 3000 ∈
      (broadcastRoute stC5 "CS_555555" 41 "c@x" 3000).2.sessions ∧
    (∀ x ∈ (broadcastRoute stC5 "CS_555555" 41 "c@x" 3000).2.questions, x.qid = q41.qid →
      x.isActiveInSession = true ∧ x.activeSessionId = some sClassC.sid ∧
      x.timesUsed = q41.timesUsed + 1 ∧ x.lastUsedAt = some 3000) ∧
    (∀ x ∈ (broadcastRoute stC5 "CS_555555" 41 "c@x" 3000).2.questions, x.qid = 40 →
      x.isActiveInSession = false ∧ x.activeSessionId = none) := by
  have h4 := C5_broadcast_effects.2.2.2 stC5 "CS_555555" 41 "c@x" 3000 sClassC q41
    (by decide) (by decide) (by decide) (by decide) (by decide)
  exact ⟨C5_broadcast_effects.1 st0 "123456" 10 "t@x" 1000 sSingle (by decide) (by decide),
    C5_broadcast_effects.2.1 stC5 "CS_555555" 41 "z@x" 3000 sClassC
      (by decide) (by decide) (by decide),
    C5_broadcast_effects.2.2.1 stC5 "CS_555555" 41 "c@x" 7200001 sClassC
      (by decide) (by decide) (by decide) (by decide),
    h4.1, h4.2.1, h4.2.2.2.1,
    h4.2.2.2.2 40 (by decide) (by decide)⟩


theorem insertSubmission_ok_preserves {st : Store} {sub : Submission} {st1 : Store}
    (h : insertSubmission st sub = Except.ok st1)
    (hinv : atMostOnePerTriple st.submissions) : atMostOnePerTriple st1.submissions := by
  unfold insertSubmission at h
  split at h
  · cases h
  · next hany =>
    injection h with h
    subst h
    unfold atMostOnePerTriple at hinv ⊢
    rw [List.pairwise_append]
    refine ⟨hinv, List.pairwise_singleton _ _, ?_⟩
    intro a ha b hb
    rw [List.mem_singleton] at hb
    subst hb
    intro hcon
    exact hany (List.any_eq_true.mpr
      ⟨a, ha, by simp [hcon.1, hcon.2.1, hcon.2.2]⟩)

/-- The submit route either leaves the store unchanged or performs exactly one
storage-level insert. -/
theorem submitAnswer_snd (st : Store) (code : String) (opt : Option Int)
    (email name : String) (now : Int) :
    (submitAnswer st code opt email name now).2 = st ∨
    ∃ sub, insertSubmission st sub =
      Except.ok (submitAnswer st code opt email name now).2 := by
  simp only [submitAnswer]
  repeat' split
  all_goals try exact Or.inl rfl
  all_goals exact Or.inr ⟨_, by assumption⟩

theorem runInserts_all_dup {sid qid : Nat} {email : String} :
    ∀ (st : Store) (l : List Submission),
      (∀ a ∈ l, tripleMatches a sid qid email) →
      (∃ x ∈ st.submissions, tripleMatches x sid qid email) →
      runInserts st l = (st, List.replicate l.length false) := by
  intro st l
  induction l with
  | nil =>
    intro _ _
    rfl
  | cons a t ih =>
    intro hall hex
    have hdup : insertSubmission st a = Except.error QuizError.DuplicateSubmission := by
      unfold insertSubmission
      rw [if_pos]
      obtain ⟨x, hx, hxt⟩ := hex
      have hat := hall a (List.mem_cons_self a t)
      refine List.any_eq_true.mpr ⟨x, hx, ?_⟩
      simp [hxt.1, hxt.2.1, hxt.2.2, hat.1, hat.2.1, hat.2.2]
    have ht := ih (fun b hb => hall b (List.mem_cons_of_mem a hb)) hex
    simp [runInserts, hdup, ht, List.replicate_succ]

/-- C1: a submit whose `(session, question, student)` triple already has a
stored submission fails with `DuplicateSubmission` and stores nothing; every
submit preserves the at-most-one-per-triple invariant; and of N concurrent
duplicate insert attempts serialized by the unique index, exactly one lands
and the other N-1 fault. -/
theorem C1_at_most_one_submission :
    (∀ (st : Store) (code : String) (opt : Int) (email name : String) (now : Int)
        (s : QuizSession) (qid : Nat) (q : Question) (x : Submission),
      (opt = 0 ∨ opt = 1 ∨ opt = 2 ∨ opt = 3) →
      code ≠ "" →
      findSessionByCode st code = some s →
      isExpired s now = false →
      (if s.sessionType = SessionType.single then s.questionId else s.activeQuestionId) =
        some qid →
      findQuestionById st qid = some q →
      findSubmission st s.sid q.qid email = some x →
      submitAnswer st code (some opt) email name now =
        (errResp 409 QuizError.DuplicateSubmission, st)) ∧
    (∀ (st : Store) (code : String) (opt : Option Int) (email name : String) (now : Int),
      atMostOnePerTriple st.submissions →
      atMostOnePerTriple (submitAnswer st code opt email name now).2.submissions) ∧
    (∀ (st : Store) (sid qid : Nat) (email : String) (attempts : List Submission),
      attempts ≠ [] →
      (∀ a ∈ attempts, tripleMatches a sid qid email) →
      (∀ x ∈ st.submissions, ¬ tripleMatches x sid qid email) →
      (runInserts st attempts).2.count true = 1 ∧
      (runInserts st attempts).2.count false = attempts.length - 1) := by
  refine ⟨?_, ?_, ?_⟩
  · intro st code opt email name now s qid q x hopt hcode hfind hexp hq0 hfq hfs
    have hb : (opt == 0 || opt == 1 || opt == 2 || opt == 3) = true := by
      rcases hopt with h | h | h | h <;> simp [h]
    have hc : (code == "") = false := by simp [hcode]
    simp only [submitAnswer, hb, hc, Bool.not_true, Bool.false_eq_true, if_false, hfind]
    rw [if_neg (by simp [hexp]), hq0]
    simp only [hfq, hfs]
  · intro st code opt email name now hinv
    rcases submitAnswer_snd st code opt email name now with h | ⟨sub, h⟩
    · rw [h]
      exact hinv
    · exact insertSubmission_ok_preserves h hinv
  · intro st sid qid email attempts hne hall hfree
    cases attempts with
    | nil => exact absurd rfl hne
    | cons a t =>
      have hok : insertSubmission st a =
          Except.ok { st with submissions := st.submissions ++ [a] } := by
        unfold insertSubmission
        rw [if_neg]
        intro hc
        obtain ⟨x, hx, hxt⟩ := List.any_eq_true.mp hc
        apply hfree x hx
        have hat := hall a (List.mem_cons_self a t)
        simp only [Bool.and_eq_true, beq_iff_eq] at hxt
        exact ⟨hxt.1.1.trans hat.1, hxt.1.2.trans hat.2.1, hxt.2.trans hat.2.2⟩
      have hrest := runInserts_all_dup { st with submissions := st.submissions ++ [a] } t
        (fun b hb => hall b (List.mem_cons_of_mem a hb))
        ⟨a, by simp, hall a (List.mem_cons_self a t)⟩
      simp [runInserts, hok, hrest, List.count_cons, List.count_replicate]

/-- C1 witness: a duplicate submit against `stDup` is rejected and the store
is unchanged; the invariant is preserved there; and three concurrent insert
attempts of the same triple on the empty ledger land exactly once. -/
theorem C1_at_most_one_submission_witness :
    submitAnswer stDup "123456" (some 1) "s@x" "S" 30000 =
      (errResp 409 QuizError.DuplicateSubmission, stDup) ∧
    atMostOnePerTriple (submitAnswer stDup "123456" (some 1) "s@x" "S" 30000).2.submissions ∧
    ((runInserts st0 [sub0, sub0, { sub0 with selectedOption := 3 }]).2.count true = 1 ∧
     (runInserts st0 [sub0, sub0, { sub0 with selectedOption := 3 }]).2.count false = 2) :=
  ⟨C1_at_most_one_submission.1 stDup "123456" 1 "s@x" "S" 30000 sSingle 10 q10 sub0
     (by decide) (by decide) (by decide) (by decide) (by decide) (by decide) (by decide),
   C1_at_most_one_submission.2.1 stDup "123456" (some 1) "s@x" "S" 30000 (by decide),
   C1_at_most_one_submission.2.2 st0 1 10 "s@x" [sub0, sub0, { sub0 with selectedOption := 3 }]
     (by decide) (by decide) (by decide)⟩


theorem expiryFrame_refl (l : List QuizSession) : expiryFrame l l :=
  fun x hx => ⟨x, hx, rfl, rfl⟩

theorem expiryFrame_update {pre : List QuizSession} {s₀ s1 : QuizSession}
    (h₀ : s₀ ∈ pre) (hsid : s1.sid = s₀.sid) (hexp : s1.expiresAt = s₀.expiresAt) :
    expiryFrame pre (pre.map (fun x => if x.sid = s1.sid then s1 else x)) := by
  intro x hx
  rw [List.mem_map] at hx
  obtain ⟨y, hy, hxy⟩ := hx
  by_cases h : y.sid = s1.sid
  · rw [if_pos h] at hxy
    subst hxy
    exact ⟨s₀, h₀, hsid, hexp⟩
  · rw [if_neg h] at hxy
    subst hxy
    exact ⟨y, hy, rfl, rfl⟩

theorem expiryFrame_map {l : List QuizSession} {f : QuizSession → QuizSession}
    (hf : ∀ x, (f x).sid = x.sid ∧ (f x).expiresAt = x.expiresAt) :
    expiryFrame l (l.map f) := by
  intro x hx
  rw [List.mem_map] at hx
  obtain ⟨y, hy, hxy⟩ := hx
  subst hxy
  exact ⟨y, hy, (hf y).1, (hf y).2⟩

theorem insertSubmission_ok_sessions {st : Store} {sub : Submission} {st1 : Store}
    (h : insertSubmission st sub = Except.ok st1) : st1.sessions = st.sessions := by
  unfold insertSubmission at h
  split at h
  · cases h
  · injection h with h
    subst h
    rfl

/-- C6: `expiresAt = startedAt + duration * 1000` is fixed by the create
routes, and none of join, poll, submit, broadcast, end-class or the cleanup
sweep ever changes any session's `expiresAt` (each post-state session keeps
the `expiresAt` of the same-id pre-state session). -/
theorem C6_expiresAt_immutable :
    (∀ (st : Store) (code email name : String) (now : Int),
      preservesExpiry st (joinSession st code email name now).2) ∧
    (∀ (st : Store) (code email : String) (now : Int),
      preservesExpiry st (pollSession st code email now).2) ∧
    (∀ (st : Store) (code : String) (opt : Option Int) (email name : String) (now : Int),
      preservesExpiry st (submitAnswer st code opt email name now).2) ∧
    (∀ (st : Store) (code : String) (qid : Nat) (caller : String) (now : Int),
      preservesExpiry st (broadcastRoute st code qid caller now).2) ∧
    (∀ (st : Store) (code caller : String),
      preservesExpiry st (endClassRoute st code caller).2) ∧
    (∀ (st : Store) (now : Int),
      preservesExpiry st (cleanupExpiredQuizzes st now)) ∧
    (∀ (st : Store) (qid : Nat) (d : Int) (code caller : String) (sid : Nat) (now : Int)
        (s : QuizSession) (st1 : Store),
      createSingleRoute st (some qid) (some d) code caller sid now =
        (RouteResult.ok s, st1) →
      s.expiresAt = s.startedAt + s.duration * 1000 ∧ s.startedAt = now ∧ s.duration = d) ∧
    (∀ (st : Store) (cid : String) (d : Int) (ce : Bool) (code caller : String)
        (sid : Nat) (now : Int) (s : QuizSession) (st1 : Store),
      createClassRoute st (some cid) (some d) ce code caller sid now =
        (RouteResult.ok s, st1) →
      s.expiresAt = s.startedAt + s.duration * 1000 ∧ s.startedAt = now ∧ s.duration = d) := by
  refine ⟨?_, ?_, ?_, ?_, ?_, ?_, ?_, ?_⟩
  · intro st code email name now
    unfold preservesExpiry
    simp only [joinSession]
    by_cases hv : (!validCodeFormat code) = true
    · rw [if_pos hv]
      exact expiryFrame_refl _
    · rw [if_neg hv]
      cases heq : findSessionByCode st code with
      | none =>
        simp only [heq]
        exact expiryFrame_refl _
      | some s =>
        simp only [heq]
        by_cases hexp : isExpired s now = true
        · rw [if_pos hexp]
          show expiryFrame st.sessions
            (saveSession st { s with status := SessionStatus.expired }).sessions
          simp only [saveSession]
          exact @expiryFrame_update st.sessions s { s with status := SessionStatus.expired }
            (List.mem_of_find?_eq_some heq) rfl rfl
        · rw [if_neg hexp]
          by_cases hty : s.sessionType = SessionType.single
          · rw [if_pos hty]
            exact expiryFrame_refl _
          · rw [if_neg hty]
            show expiryFrame st.sessions
              (saveSession st (addStudent s email name now)).sessions
            simp only [saveSession]
            exact expiryFrame_update (List.mem_of_find?_eq_some heq)
              (addStudent_sid s email name now) (addStudent_expiresAt s email name now)
  · intro st code email now
    unfold preservesExpiry
    simp only [pollSession]
    repeat' split
    all_goals exact expiryFrame_refl _
  · intro st code opt email name now
    unfold preservesExpiry
    rcases submitAnswer_snd st code opt email name now with h | ⟨sub, h⟩
    · rw [h]
      exact expiryFrame_refl _
    · rw [insertSubmission_ok_sessions h]
      exact expiryFrame_refl _
  · intro st code qid caller now
    unfold preservesExpiry
    simp only [broadcastRoute]
    cases heq : findSessionByCode st code with
    | none =>
      simp only [heq]
      exact expiryFrame_refl _
    | some s =>
      simp only [heq]
      by_cases h1 : s.sessionType ≠ SessionType.cls
      · rw [if_pos h1]
        exact expiryFrame_refl _
      · rw [if_neg h1]
        by_cases h2 : s.createdBy ≠ caller
        · rw [if_pos h2]
          exact expiryFrame_refl _
        · rw [if_neg h2]
          by_cases h3 : isExpired s now = true
          · rw [if_pos h3]
            exact expiryFrame_refl _
          · rw [if_neg h3]
            cases hq : findQuestionById st qid with
            | none =>
              simp only [hq]
              exact expiryFrame_refl _
            | some q =>
              simp only [hq]
              show expiryFrame st.sessions
                (saveSession (releasePreviousQuestion st s.activeQuestionId)
                  (broadcastQuestionMethod s qid now)).sessions
              simp only [saveSession]
              rw [releasePreviousQuestion_sessions]
              exact expiryFrame_update (List.mem_of_find?_eq_some heq) rfl rfl
  · intro st code caller
    unfold preservesExpiry
    simp only [endClassRoute]
    cases heq : findSessionByCode st code with
    | none =>
      simp only [heq]
      exact expiryFrame_refl _
    | some s =>
      simp only [heq]
      by_cases h2 : s.createdBy ≠ caller
      · rw [if_pos h2]
        exact expiryFrame_refl _
      · rw [if_neg h2]
        show expiryFrame st.sessions
          (saveSession (releasePreviousQuestion st s.activeQuestionId)
            { s with status := SessionStatus.expired }).sessions
        simp only [saveSession]
        rw [releasePreviousQuestion_sessions]
        exact @expiryFrame_update st.sessions s { s with status := SessionStatus.expired }
          (List.mem_of_find?_eq_some heq) rfl rfl
  · intro st now
    unfold preservesExpiry cleanupExpiredQuizzes
    exact expiryFrame_map (fun x => by split <;> exact ⟨rfl, rfl⟩)
  · intro st qid d code caller sid now s st1 h
    simp only [createSingleRoute] at h
    split at h
    · simp at h
    · split at h
      · simp at h
      · split at h
        · simp at h
        · simp only [Prod.mk.injEq, RouteResult.ok.injEq] at h
          obtain ⟨h1, _⟩ := h
          subst h1
          exact ⟨rfl, rfl, rfl⟩
  · intro st cid d ce code caller sid now s st1 h
    simp only [createClassRoute] at h
    split at h
    · simp at h
    · split at h
      · simp at h
      · split at h
        · simp at h
        · simp only [Prod.mk.injEq, RouteResult.ok.injEq] at h
          obtain ⟨h1, _⟩ := h
          subst h1
          exact ⟨rfl, rfl, rfl⟩

/-- C6 witness: the frame parts instantiated at the concrete stores, and the
creation formula on a successful concrete create. -/
theorem C6_expiresAt_immutable_witness :
    preservesExpiry st0 (joinSession st0 "123456" "s@x" "S" 30000).2 ∧
    preservesExpiry stC10 (pollSession stC10 "CS_888888" "s@x" 10000).2 ∧
    preservesExpiry st0 (submitAnswer st0 "123456" (some 2) "s@x" "S" 30000).2 ∧
    preservesExpiry stC5 (broadcastRoute stC5 "CS_555555" 41 "c@x" 3000).2 ∧
    preservesExpiry stC5 (endClassRoute stC5 "CS_555555" "c@x").2 ∧
    preservesExpiry st0 (cleanupExpiredQuizzes st0 70000) ∧
    ({ sid := 33, quizCode := "999999", sessionType := SessionType.single,
       questionId := some 10, activeQuestionId := none, questionsHistory := [],
       duration := 60, startedAt := 5000, expiresAt := 65000,
       status := SessionStatus.active, createdBy := "t@x", courseId := "c1",
       studentsJoined := [] : QuizSession}.expiresAt =
      ({ sid := 33, quizCode := "999999", sessionType := SessionType.single,
         questionId := some 10, activeQuestionId := none, questionsHistory := [],
         duration := 60, startedAt := 5000, expiresAt := 65000,
         status := SessionStatus.active, createdBy := "t@x", courseId := "c1",
         studentsJoined := [] : QuizSession}.startedAt +
       { sid := 33, quizCode := "999999", sessionType := SessionType.single,
         questionId := some 10, activeQuestionId := none, questionsHistory := [],
         duration := 60, startedAt := 5000, expiresAt := 65000,
         status := SessionStatus.active, createdBy := "t@x", courseId := "c1",
         studentsJoined := [] : QuizSession}.duration * 1000)) :=
  ⟨C6_expiresAt_immutable.1 st0 "123456" "s@x" "S" 30000,
   C6_expiresAt_immutable.2.1 stC10 "CS_888888" "s@x" 10000,
   C6_expiresAt_immutable.2.2.1 st0 "123456" (some 2) "s@x" "S" 30000,
   C6_expiresAt_immutable.2.2.2.1 stC5 "CS_555555" 41 "c@x" 3000,
   C6_expiresAt_immutable.2.2.2.2.1 stC5 "CS_555555" "c@x",
   C6_expiresAt_immutable.2.2.2.2.2.1 st0 70000,
   (C6_expiresAt_immutable.2.2.2.2.2.2.1 st0 10 60 "999999" "t@x" 33 5000 _
     (createSingleRoute st0 (some 10) (some 60) "999999" "t@x" 33 5000).2
     (by decide)).1⟩

end LMS
